import Mathlib

/-!
Verification of the device-action dispatch core of the home-automation CLI
(home_automation.py, home_automation_wyze.py, home_automation_vesync.py).

The Python sources are shallowly embedded: pure computations become Lean
functions, Python `int`/`float` arithmetic on the bulb values becomes exact
arithmetic over `ℚ` with an explicit truncation (`pyInt`), strings stay
`String`, an optional CLI argument is an `Option String`, and the side
effects of a device handler (the vendor SDK calls it issues) are reified as
a list of commands.
-/

namespace HomeAutomation

/-! ## String helpers (models of the Python built-ins used by the scripts) -/

/-- Models Python `str.isnumeric()` as used on CLI action values: true for a
non-empty string of decimal digits.  (Python also accepts other Unicode
numeric characters; the scripts only ever see ASCII arguments.) -/
def isNumeric (s : String) : Bool :=
  !s.toList.isEmpty && s.toList.all (fun c => c.isDigit)

/-- Models Python `int(s)` on a string of decimal digits. -/
def strToNat (s : String) : ℕ :=
  s.toList.foldl (fun n c => n * 10 + (c.toNat - 48)) 0

/-- Does `l` start with `p`?  Helper for the substring test below. -/
def startsWithList : List Char → List Char → Bool
  | [], _ => true
  | _ :: _, [] => false
  | p :: ps, c :: cs => p = c && startsWithList ps cs

/-- Does `pat` occur somewhere inside `s`?  Models Python `pat in s`. -/
def containsSub (pat : List Char) : List Char → Bool
  | [] => startsWithList pat []
  | c :: cs => startsWithList pat (c :: cs) || containsSub pat cs

/-- Split a list at every occurrence of `sep`; models Python `str.split`. -/
def splitListChar (sep : Char) : List Char → List (List Char)
  | [] => [[]]
  | c :: cs =>
    let r := splitListChar sep cs
    if c = sep then [] :: r
    else
      match r with
      | [] => [[c]]
      | y :: ys => (c :: y) :: ys

/-- Models Python `s.split(sep)` for a one-character separator. -/
def splitOnChar (sep : Char) (s : String) : List String :=
  (splitListChar sep s.toList).map (fun l => String.mk l)

/-- Models Python `int(q)` on a float/int: truncation toward zero.  Every
value the scripts truncate is non-negative, so this is the floor there. -/
def pyInt (q : ℚ) : ℤ :=
  if 0 ≤ q then ⌊q⌋ else ⌈q⌉

/-! ## Constants (home_automation_wyze.py lines 39-45, home_automation_vesync.py
lines 24-25) -/

def WYZE_BULB_BRIGHTNESS_MIN : ℕ := 1
def WYZE_BULB_BRIGHTNESS_MAX : ℕ := 100

/-- `(WYZE_BULB_BRIGHTNESS_MAX - WYZE_BULB_BRIGHTNESS_MIN)/5`: Python float
division, so the value is exactly 19.8; embedded as the exact rational. -/
def WYZE_BULB_BRIGHTNESS_INTERVAL : ℚ :=
  ((WYZE_BULB_BRIGHTNESS_MAX : ℚ) - (WYZE_BULB_BRIGHTNESS_MIN : ℚ)) / 5

def WYZE_BULB_COLOR_TEMPERATURE_MIN : ℕ := 2700
def WYZE_BULB_COLOR_TEMPERATURE_MAX : ℕ := 6500

def WYZE_BULB_COLOR_TEMPERATURE_RANGE : ℕ :=
  WYZE_BULB_COLOR_TEMPERATURE_MAX - WYZE_BULB_COLOR_TEMPERATURE_MIN

/-- `(range)/5 = 760.0`; exact as a rational. -/
def WYZE_BULB_COLOR_TEMPERATURE_INTERVAL : ℚ :=
  (WYZE_BULB_COLOR_TEMPERATURE_RANGE : ℚ) / 5

def VESYNC_FAN_SPEED_MIN : ℕ := 1
def VESYNC_FAN_SPEED_MAX : ℕ := 3

/-! ## Action-value validation (home_automation_wyze.py lines 176-188,
home_automation_vesync.py lines 87-99).  The `property_name` parameter of the
source functions is only interpolated into diagnostic prints and is dropped
here; a `None` Python argument is `none`. -/

/-- `validate_bulb_action_value(property_name, property_value, min, max)`:
`None` is rejected; then `'+'`/`'-'` accepted; then a numeric string whose
integer value lies within the bounds is accepted; anything else rejected. -/
def validate_bulb_action_value (property_value : Option String)
    (min_value max_value : ℕ) : Bool :=
  match property_value with
  | none => false
  | some s =>
    if s = "+" ∨ s = "-" then true
    else if isNumeric s = true ∧ min_value ≤ strToNat s ∧ strToNat s ≤ max_value then
      true
    else false

/-- `validate_fan_action_value(property_name, property_value, min, max)`:
`None` rejected; a numeric string within bounds accepted; the literal
`"cycle"` accepted; anything else rejected. -/
def validate_fan_action_value (property_value : Option String)
    (min_value max_value : ℕ) : Bool :=
  match property_value with
  | none => false
  | some s =>
    if isNumeric s = true ∧ min_value ≤ strToNat s ∧ strToNat s ≤ max_value then true
    else if s = "cycle" then true
    else false

/-! ## Per-device validation (home_automation.py lines 224-301) -/

/-- `validate_action_value(action_value_type, action_value)`
(home_automation.py lines 224-238): `None` value type means the action takes
no value and anything (including absence) is accepted. -/
def validate_action_value (action_value_type : Option String)
    (action_value : Option String) : Bool :=
  match action_value_type with
  | none => true
  | some t =>
    if t = "brightness" then
      validate_bulb_action_value action_value WYZE_BULB_BRIGHTNESS_MIN
        WYZE_BULB_BRIGHTNESS_MAX
    else if t = "color-temperature" then
      validate_bulb_action_value action_value WYZE_BULB_COLOR_TEMPERATURE_MIN
        WYZE_BULB_COLOR_TEMPERATURE_MAX
    else if t = "fan-speed" then
      validate_fan_action_value action_value VESYNC_FAN_SPEED_MIN
        VESYNC_FAN_SPEED_MAX
    else false

/-- The plug row of the `validations` table of
`validate_parameters_for_device` (home_automation.py lines 255-256): a dict
lookup, embedded as a function from action to its required value type
(`some none` = legal action needing no value; `none` = not a key). -/
def plug_validations (action : String) : Option (Option String) :=
  if action = "on" then some none
  else if action = "off" then some none
  else none

/-- The bulb row of the `validations` table (home_automation.py lines
257-260). -/
def bulb_validations (action : String) : Option (Option String) :=
  if action = "on" then some none
  else if action = "off" then some none
  else if action = "bright" then some (some "brightness")
  else if action = "temp" then some (some "color-temperature")
  else none

/-- The fan row of the `validations` table (home_automation.py lines
261-263). -/
def fan_validations (action : String) : Option (Option String) :=
  if action = "on" then some none
  else if action = "off" then some none
  else if action = "speed" then some (some "fan-speed")
  else none

/-- The outer `validations` dict (home_automation.py lines 254-264), keyed by
device type. -/
def validations (device_type : String) : Option (String → Option (Option String)) :=
  if device_type = "plug" then some plug_validations
  else if device_type = "bulb" then some bulb_validations
  else if device_type = "fan" then some fan_validations
  else none

/-- `validate_parameters_for_device(device_name, device_type, action,
action_value)` (home_automation.py lines 253-279).  An unknown device type,
an absent action (`None` is not a dict key) or an action outside the type's
table all yield `False`; otherwise the action value is validated against the
required value type. -/
def validate_parameters_for_device (device_name device_type : String)
    (action : Option String) (action_value : Option String) : Bool :=
  match validations device_type with
  | none => false
  | some table =>
    match action with
    | none => false
    | some a =>
      match table a with
      | none => false
      | some action_value_type => validate_action_value action_value_type action_value

/-- A device descriptor as `parse_parameters` builds it
(home_automation.py lines 196-201). -/
structure Device where
  device_name : String
  device_api : String
  device_type : String
  device_id : String
deriving DecidableEq, Inhabited

/-- `validate_parameters(devices, action, action_value)` (home_automation.py
lines 294-301) together with how far its loop ran: the Boolean result, and
the number of devices checked before the loop returned (`is_valid` starts
`False`; each device is checked in order; the loop breaks at the first
invalid device). -/
def validate_parameters_run (action action_value : Option String) :
    List Device → Bool × ℕ
  | [] => (false, 0)
  | d :: rest =>
    let v := validate_parameters_for_device d.device_name d.device_type action
      action_value
    if v then
      if rest.isEmpty then (true, 1)
      else
        let r := validate_parameters_run action action_value rest
        (r.1, r.2 + 1)
    else (false, 1)

/-- The Boolean `validate_parameters` returns (for a non-`None` device list). -/
def validate_parameters (devices : List Device) (action action_value : Option String) :
    Bool :=
  (validate_parameters_run action action_value devices).1

/-- The dispatch calls `main` (home_automation.py lines 353-376) performs:
when validation fails it prints help and dispatches nothing; otherwise it
starts one thread per device, calling that device type's action with the
device id. -/
def main_dispatch_calls (devices : List Device) (action action_value : Option String) :
    List (String × String) :=
  if validate_parameters devices action action_value then
    devices.map (fun d => (d.device_type, d.device_id))
  else []

/-! ## Alias resolution (home_automation.py lines 136-159) -/

/-- The `action_aliases` dict of `convert_aliases`: `dict.get(action, action)`
is modelled by `(action_aliases a).getD a`. -/
def action_aliases (a : String) : Option String :=
  if a = "n" then some "on"
  else if a = "f" then some "off"
  else if a = "brightness" then some "bright"
  else if a = "b" then some "bright"
  else if a = "temperature" then some "temp"
  else if a = "t" then some "temp"
  else if a = "warm" then some "temp|3000"
  else if a = "cool" then some "temp|6500"
  else if a = "1" then some "speed|1"
  else if a = "2" then some "speed|2"
  else if a = "3" then some "speed|3"
  else none

/-- `convert_aliases(action, action_value)` (home_automation.py lines
136-159): look the action up in the alias table (falling back to itself);
if the result is non-`None` and contains a `'|'`, split it and take the two
parts as action and action value (a `'|'` occurrence guarantees at least two
parts, so the Python indexing cannot fail). -/
def convert_aliases (action : Option String) (action_value : Option String) :
    Option String × Option String :=
  match action with
  | none => (none, action_value)
  | some a0 =>
    let a := (action_aliases a0).getD a0
    if a.toList.contains '|' then
      let action_and_value := splitOnChar '|' a
      (some (action_and_value.getD 0 ""), some (action_and_value.getD 1 ""))
    else (some a, action_value)

/-! ## Wyze bulb handlers (home_automation_wyze.py lines 194-231) -/

/-- The fields of a live Wyze bulb object that the handlers read.  `type` is
the SDK device class name: `"Light"` for a plain white bulb, `"MeshLight"`
for a color-capable bulb. -/
structure Bulb where
  type : String
  is_on : Bool
  brightness : ℚ
  color_temp : ℚ
deriving DecidableEq

/-- The SDK calls a bulb handler can issue, reified. -/
inductive BulbCmd
  | turnOn
  | turnOff
  | setBrightness (b : ℤ)
  | setColorTemp (t : ℤ)
deriving DecidableEq

/-- The brightness `bulb_action_brightness` sends (home_automation_wyze.py
lines 213-217): `'+'`/`'-'` nudge the current brightness by one interval
step clamped to the bounds, any other value is parsed as the target; the
result is truncated by `int(...)`. -/
def computedBrightness (current : ℚ) (action_value : String) : ℤ :=
  pyInt (if action_value = "+" then
           min (current + WYZE_BULB_BRIGHTNESS_INTERVAL) (WYZE_BULB_BRIGHTNESS_MAX : ℚ)
         else if action_value = "-" then
           max (current - WYZE_BULB_BRIGHTNESS_INTERVAL) (WYZE_BULB_BRIGHTNESS_MIN : ℚ)
         else (strToNat action_value : ℚ))

/-- The color temperature `bulb_action_color_temperature` computes
(home_automation_wyze.py lines 220-224), same shape as the brightness. -/
def computedColorTemperature (current : ℚ) (action_value : String) : ℤ :=
  pyInt (if action_value = "+" then
           min (current + WYZE_BULB_COLOR_TEMPERATURE_INTERVAL)
             (WYZE_BULB_COLOR_TEMPERATURE_MAX : ℚ)
         else if action_value = "-" then
           max (current - WYZE_BULB_COLOR_TEMPERATURE_INTERVAL)
             (WYZE_BULB_COLOR_TEMPERATURE_MIN : ℚ)
         else (strToNat action_value : ℚ))

/-- `bulb_action_brightness(client, bulb, action_value)`
(home_automation_wyze.py lines 207-218): a plain white bulb that is off is
first turned on; then the computed brightness is set. -/
def bulb_action_brightness (bulb : Bulb) (action_value : String) : List BulbCmd :=
  (if bulb.type = "Light" ∧ bulb.is_on = false then [BulbCmd.turnOn] else []) ++
    [BulbCmd.setBrightness (computedBrightness bulb.brightness action_value)]

/-- `bulb_action_color_temperature(client, bulb, action_value)`
(home_automation_wyze.py lines 219-230): the set command is only issued for
a `"Light"`, or for a `"MeshLight"` that is currently on (setting the
temperature of an off MeshLight would turn it on, which the script avoids
by skipping the command). -/
def bulb_action_color_temperature (bulb : Bulb) (action_value : String) :
    List BulbCmd :=
  let new_color_temperature := computedColorTemperature bulb.color_temp action_value
  if bulb.type = "Light" ∨ (bulb.type = "MeshLight" ∧ bulb.is_on = true) then
    [BulbCmd.setColorTemp new_color_temperature]
  else []

/-! ## VeSync fan handlers (home_automation_vesync.py lines 105-125) -/

/-- The fields of a live VeSync fan object that the handlers read. -/
structure Fan where
  device_status : String
  fan_level : ℕ
deriving DecidableEq

/-- The SDK calls a fan handler can issue, reified. -/
inductive FanCmd
  | turnOn
  | turnOff
  | getDetails
  | changeFanSpeed (n : ℕ)
  | toggleSwitch (towardOn : Bool)
deriving DecidableEq

/-- `fan_action_speed(client, fan, action_value)` (home_automation_vesync.py
lines 117-125): `"cycle"` refreshes the device, reads the current level and
advances it by one, wrapping 3 back to 1; any other value is parsed as the
target speed.  No on/off command is ever issued. -/
def fan_action_speed (fan : Fan) (action_value : String) : List FanCmd :=
  if action_value = "cycle" then
    let fan_speed := fan.fan_level
    let fan_speed := if fan_speed = 3 then 1 else fan_speed + 1
    [FanCmd.getDetails, FanCmd.changeFanSpeed fan_speed]
  else
    [FanCmd.changeFanSpeed (strToNat action_value)]

/-! ## The Wyze retry wrapper (home_automation_wyze.py lines 142-160 in
`plug_action` and lines 248-271 in `bulb_action`; both wrap their body in the
identical `for attempt in Retrying(stop=stop_after_attempt(3)): with attempt:
try: ... except WyzeApiError as e: if 'The access token has expired' in
e.args[0]: client = create_wyze_client(); raise`). -/

/-- The text `plug_action`/`bulb_action` look for in a `WyzeApiError`. -/
def EXPIRED_TOKEN_TEXT : String := "The access token has expired"

/-- Models Python `'The access token has expired' in e.args[0]`. -/
def signalsExpired (msg : String) : Bool :=
  containsSub EXPIRED_TOKEN_TEXT.toList msg.toList

/-- What one execution of the `try` body does: completes, raises a
`WyzeApiError` carrying `msg`, or raises some other exception (for example
the `KeyError` of an action missing from the handler dict, or any
non-`WyzeApiError` the SDK raises). -/
inductive AttemptOutcome
  | ok
  | wyzeApiError (msg : String)
  | otherError
deriving DecidableEq

/-- What the whole wrapped call did: how many attempts ran, whether the loop
ended with a completed attempt, whether a `RetryError` escaped to the caller,
and how many times `create_wyze_client()` was invoked. -/
structure RetryResult where
  attempts : ℕ
  succeeded : Bool
  surfaced : Bool
  recreates : ℕ
deriving DecidableEq

/-- One pass through `with attempt: try: ... except WyzeApiError as e: ...`:
`(does an exception escape the attempt, is the client recreated)`.
A `WyzeApiError` whose message signals expiry is re-raised after recreating
the client; a `WyzeApiError` with any other message is caught and NOT
re-raised (the `raise` sits inside the `if`), so the attempt completes; any
other exception escapes the `try` untouched. -/
def attemptStep (o : AttemptOutcome) : Bool × Bool :=
  match o with
  | AttemptOutcome.ok => (false, false)
  | AttemptOutcome.wyzeApiError msg =>
    if signalsExpired msg then (true, true) else (false, false)
  | AttemptOutcome.otherError => (true, false)

/-- Tenacity's `Retrying(stop=stop_after_attempt(n))` loop: run attempts while
the budget lasts; an attempt out of whose `with` block an exception escapes is
retried; when the budget is exhausted a `RetryError` is raised (`surfaced`).
`env i` is the outcome the `try` body would have on (0-based) attempt `i`. -/
def runRetrying (env : ℕ → AttemptOutcome) : ℕ → ℕ → ℕ → RetryResult
  | 0, i, recs => ⟨i, false, true, recs⟩
  | budget + 1, i, recs =>
    let step := attemptStep (env i)
    let recs2 := recs + (if step.2 then 1 else 0)
    if step.1 then runRetrying env budget (i + 1) recs2
    else ⟨i + 1, true, false, recs2⟩

/-- `plug_action`/`bulb_action` with their attempt budget of 3. -/
def wyze_device_action (env : ℕ → AttemptOutcome) : RetryResult :=
  runRetrying env 3 0 0

/-! ## The client cache (home_automation.py lines 95-121,
home_automation_wyze.py lines 50-78, home_automation_vesync.py lines 36-74).
Client handles are numbered: 0 is the handle deserialized from the on-disk
pickle, 1 is a freshly logged-in handle. -/

/-- Which client pickles exist beside the script. -/
structure DiskState where
  wyzeCacheExists : Bool
  vesyncCacheExists : Bool
deriving DecidableEq

/-- The observable steps of obtaining a client. -/
inductive ClientEvent
  | loadedFromCache (api : String)
  | freshLogin (api : String)
deriving DecidableEq

/-- The module-level `clients` dict of home_automation.py (lines 95-98). -/
structure ClientsState where
  wyze : Option ℕ
  vesync : Option ℕ
deriving DecidableEq

/-- `create_wyze_client()` (home_automation_wyze.py lines 50-56) as defined:
it takes NO parameters, always performs a fresh `Client(...)` login and
pickles it; it never reads the existing pickle. -/
def create_wyze_client (disk : DiskState) : ℕ × DiskState × List ClientEvent :=
  (1, { disk with wyzeCacheExists := true }, [ClientEvent.freshLogin "wyze"])

/-- `get_wyze_client(script_path)` (home_automation_wyze.py lines 66-78): load
the pickle when it exists, otherwise log in freshly.  This is the function
that matches the caching design, but `main`'s call chain never invokes it
(only the debugging helper `dump_wyze_devices` does). -/
def get_wyze_client (disk : DiskState) : ℕ × DiskState × List ClientEvent :=
  if disk.wyzeCacheExists then (0, disk, [ClientEvent.loadedFromCache "wyze"])
  else create_wyze_client disk

/-- `create_vesync_client(script_path)` (home_automation_vesync.py lines
36-74): load the pickle when it exists, otherwise log in, update and pickle. -/
def create_vesync_client (disk : DiskState) : ℕ × DiskState × List ClientEvent :=
  if disk.vesyncCacheExists then (0, disk, [ClientEvent.loadedFromCache "vesync"])
  else (1, { disk with vesyncCacheExists := true }, [ClientEvent.freshLogin "vesync"])

/-- `get_client(api)` (home_automation.py lines 113-121).  A memoized handle
is returned as is.  On the first call for `'vesync'` the handle is created
via `create_vesync_client(SCRIPT_PATH)` and memoized.  On the first call for
`'wyze'` the source invokes `home_automation_wyze.create_wyze_client(SCRIPT_PATH)`
(line 117) — but `create_wyze_client` (home_automation_wyze.py line 50) is
declared with no parameters, so in Python this call raises a `TypeError`
before any client is created or any cache is read; the error result models
that raise. -/
def get_client (api : String) (clients : ClientsState) (disk : DiskState) :
    Except String (ℕ × ClientsState × DiskState × List ClientEvent) :=
  if api = "wyze" then
    match clients.wyze with
    | some c => Except.ok (c, clients, disk, [])
    | none =>
      Except.error
        "TypeError: create_wyze_client() takes 0 positional arguments but 1 was given"
  else if api = "vesync" then
    match clients.vesync with
    | some c => Except.ok (c, clients, disk, [])
    | none =>
      let r := create_vesync_client disk
      Except.ok (r.1, { clients with vesync := some r.1 }, r.2.1, r.2.2)
  else
    Except.error "KeyError"

/-! # Theorems -/

/-- Claim C10: resolving a combined alias discards the caller's explicit
action value: for every user-supplied `v` (including a non-`none` one),
`convert_aliases` maps `"warm"` to `("temp", "3000")`, `"cool"` to
`("temp", "6500")` and `"1"` to `("speed", "1")`, silently overriding `v`. -/
theorem claim_C10_alias_overrides_value (v : Option String) :
    convert_aliases (some "warm") v = (some "temp", some "3000") ∧
    convert_aliases (some "cool") v = (some "temp", some "6500") ∧
    convert_aliases (some "1") v = (some "speed", some "1") :=
  ⟨rfl, rfl, rfl⟩

/-- Claim C8, counterexample: the token `"speed|2"` is not a key of the alias
table, yet resolution does not return it unchanged — the `'|'` split applies
to every looked-up result, alias or not. -/
theorem claim_C8_counterexample :
    convert_aliases (some "speed|2") none = (some "speed", some "2") ∧
    convert_aliases (some "speed|2") none ≠ (some "speed|2", none) := by
  exact ⟨rfl, by decide⟩

/-- Claim C8 as amended: every supported alias resolves to its documented
canonical pair, and a token that is not in the alias table and does not
contain the `'|'` separator passes through unchanged with the original
action value (a non-alias token containing `'|'` is instead split at the
separator into an action and a value). -/
theorem claim_C8_alias_resolution (a : String) (v : Option String)
    (h1 : action_aliases a = none) (h2 : a.toList.contains '|' = false) :
    convert_aliases (some a) v = (some a, v) ∧
    convert_aliases (some "n") none = (some "on", none) ∧
    convert_aliases (some "f") none = (some "off", none) ∧
    convert_aliases (some "b") none = (some "bright", none) ∧
    convert_aliases (some "brightness") none = (some "bright", none) ∧
    convert_aliases (some "t") none = (some "temp", none) ∧
    convert_aliases (some "temperature") none = (some "temp", none) ∧
    convert_aliases (some "warm") none = (some "temp", some "3000") ∧
    convert_aliases (some "cool") none = (some "temp", some "6500") ∧
    convert_aliases (some "1") none = (some "speed", some "1") ∧
    convert_aliases (some "2") none = (some "speed", some "2") ∧
    convert_aliases (some "3") none = (some "speed", some "3") := by
  refine ⟨?_, rfl, rfl, rfl, rfl, rfl, rfl, rfl, rfl, rfl, rfl, rfl⟩
  have h2m : ¬ '|' ∈ a.data := by simpa [String.toList] using h2
  simp [convert_aliases, h1, h2m]

/-- Claim C8, witness: the canonical token `"on"` is not an alias and passes
through with the caller's value intact. -/
theorem claim_C8_alias_resolution_witness :
    convert_aliases (some "on") (some "5") = (some "on", some "5") ∧
    convert_aliases (some "n") none = (some "on", none) ∧
    convert_aliases (some "f") none = (some "off", none) ∧
    convert_aliases (some "b") none = (some "bright", none) ∧
    convert_aliases (some "brightness") none = (some "bright", none) ∧
    convert_aliases (some "t") none = (some "temp", none) ∧
    convert_aliases (some "temperature") none = (some "temp", none) ∧
    convert_aliases (some "warm") none = (some "temp", some "3000") ∧
    convert_aliases (some "cool") none = (some "temp", some "6500") ∧
    convert_aliases (some "1") none = (some "speed", some "1") ∧
    convert_aliases (some "2") none = (some "speed", some "2") ∧
    convert_aliases (some "3") none = (some "speed", some "3") :=
  claim_C8_alias_resolution "on" (some "5") rfl rfl

/-- Claim C6: the fan speed action with value `"cycle"` sets the current
level plus one, wrapping 3 back to 1; an absolute numeric value is set
directly; and no ON command is ever issued by the speed handler. -/
theorem claim_C6_fan_speed (fan : Fan) (v : String) (hnum : isNumeric v = true) :
    fan_action_speed fan "cycle" =
      [FanCmd.getDetails,
       FanCmd.changeFanSpeed (if fan.fan_level = 3 then 1 else fan.fan_level + 1)] ∧
    fan_action_speed fan v = [FanCmd.changeFanSpeed (strToNat v)] ∧
    (∀ w : String, FanCmd.turnOn ∉ fan_action_speed fan w) := by
  refine ⟨rfl, ?_, ?_⟩
  · have hne : v ≠ "cycle" := by
      intro h
      subst h
      exact absurd hnum (by decide)
    simp [fan_action_speed, hne]
  · intro w
    by_cases hw : w = "cycle" <;> simp [fan_action_speed, hw]

/-- Claim C6, witness: a fan at level 3 cycles to 1; the absolute value
`"2"` is set as 2; no ON command appears in either case. -/
theorem claim_C6_fan_speed_witness :
    fan_action_speed ⟨"on", 3⟩ "cycle" = [FanCmd.getDetails, FanCmd.changeFanSpeed 1] ∧
    fan_action_speed ⟨"on", 3⟩ "2" = [FanCmd.changeFanSpeed 2] ∧
    (∀ w : String, FanCmd.turnOn ∉ fan_action_speed ⟨"on", 3⟩ w) :=
  claim_C6_fan_speed ⟨"on", 3⟩ "2" (by decide)

/-- Claim C5: for a valid color-temperature value, the handler issues no
command at all for a color-capable (`MeshLight`) bulb that is off, and
issues the set command for a plain (`Light`) bulb regardless of its on/off
state. -/
theorem claim_C5_color_temp_skip (bulb : Bulb) (action_value : String)
    (hvalid : validate_bulb_action_value (some action_value)
      WYZE_BULB_COLOR_TEMPERATURE_MIN WYZE_BULB_COLOR_TEMPERATURE_MAX = true) :
    (bulb.type = "MeshLight" → bulb.is_on = false →
      bulb_action_color_temperature bulb action_value = []) ∧
    (bulb.type = "Light" →
      bulb_action_color_temperature bulb action_value =
        [BulbCmd.setColorTemp (computedColorTemperature bulb.color_temp action_value)]) := by
  constructor
  · intro ht hoff
    simp [bulb_action_color_temperature, ht, hoff]
  · intro ht
    simp [bulb_action_color_temperature, ht]

/-- Claim C5, witness: an off MeshLight gets no command; an off Light gets
the set command. -/
theorem claim_C5_color_temp_skip_witness :
    bulb_action_color_temperature ⟨"MeshLight", false, 100, 3000⟩ "+" = [] ∧
    bulb_action_color_temperature ⟨"Light", false, 100, 3000⟩ "+" =
      [BulbCmd.setColorTemp (computedColorTemperature 3000 "+")] :=
  ⟨(claim_C5_color_temp_skip ⟨"MeshLight", false, 100, 3000⟩ "+" (by decide)).1 rfl rfl,
   (claim_C5_color_temp_skip ⟨"Light", false, 100, 3000⟩ "+" (by decide)).2 rfl⟩

/-- The budget-0 base case of the loop: a `RetryError` is raised. -/
theorem runRetrying_zero (env : ℕ → AttemptOutcome) (i r : ℕ) :
    runRetrying env 0 i r = ⟨i, false, true, r⟩ := rfl

/-- One failing attempt consumes one unit of budget and recurses. -/
theorem runRetrying_step_fail (env : ℕ → AttemptOutcome) (b i r : ℕ) (rec : Bool)
    (h : attemptStep (env i) = (true, rec)) :
    runRetrying env (b + 1) i r =
      runRetrying env b (i + 1) (r + if rec then 1 else 0) := by
  simp [runRetrying, h]

/-- One completed attempt ends the loop. -/
theorem runRetrying_step_ok (env : ℕ → AttemptOutcome) (b i r : ℕ) (rec : Bool)
    (h : attemptStep (env i) = (false, rec)) :
    runRetrying env (b + 1) i r = ⟨i + 1, true, false, r + if rec then 1 else 0⟩ := by
  simp [runRetrying, h]

/-- The retry loop never runs more attempts than its remaining budget. -/
theorem runRetrying_attempts_le (env : ℕ → AttemptOutcome) :
    ∀ (b i r : ℕ), (runRetrying env b i r).attempts ≤ i + b := by
  intro b
  induction b with
  | zero => intro i r; simp [runRetrying_zero]
  | succ n ih =>
    intro i r
    rcases hstep : attemptStep (env i) with ⟨fail, rec⟩
    cases fail with
    | false =>
      rw [runRetrying_step_ok env n i r rec hstep]
      exact (by omega : i + 1 ≤ i + (n + 1))
    | true =>
      rw [runRetrying_step_fail env n i r rec hstep]
      exact le_trans (ih (i + 1) _) (by omega)

/-- The attempt counter only grows. -/
theorem runRetrying_attempts_ge (env : ℕ → AttemptOutcome) :
    ∀ (b i r : ℕ), i ≤ (runRetrying env b i r).attempts := by
  intro b
  induction b with
  | zero => intro i r; simp [runRetrying_zero]
  | succ n ih =>
    intro i r
    rcases hstep : attemptStep (env i) with ⟨fail, rec⟩
    cases fail with
    | false =>
      rw [runRetrying_step_ok env n i r rec hstep]
      exact (by omega : i ≤ i + 1)
    | true =>
      rw [runRetrying_step_fail env n i r rec hstep]
      exact le_trans (by omega) (ih (i + 1) _)

/-- With at least one unit of budget left, at least one more attempt runs. -/
theorem runRetrying_attempts_ge_succ (env : ℕ → AttemptOutcome) (b i r : ℕ) :
    i + 1 ≤ (runRetrying env (b + 1) i r).attempts := by
  rcases hstep : attemptStep (env i) with ⟨fail, rec⟩
  cases fail with
  | false =>
    rw [runRetrying_step_ok env b i r rec hstep]
  | true =>
    rw [runRetrying_step_fail env b i r rec hstep]
    exact runRetrying_attempts_ge env b (i + 1) _

/-- The recreation counter only grows. -/
theorem runRetrying_recreates_ge (env : ℕ → AttemptOutcome) :
    ∀ (b i r : ℕ), r ≤ (runRetrying env b i r).recreates := by
  intro b
  induction b with
  | zero => intro i r; simp [runRetrying_zero]
  | succ n ih =>
    intro i r
    rcases hstep : attemptStep (env i) with ⟨fail, rec⟩
    cases fail with
    | false =>
      rw [runRetrying_step_ok env n i r rec hstep]
      exact (Nat.le_add_right r _ :
        r ≤ r + if rec then 1 else 0)
    | true =>
      rw [runRetrying_step_fail env n i r rec hstep]
      exact le_trans (Nat.le_add_right r _) (ih (i + 1) _)

/-- Claim C1, counterexample: the claim says a non-expiry error aborts the
loop with no further attempts and is surfaced.  In the code, (a) an error
that is not a `WyzeApiError` (here `otherError`, e.g. a `KeyError`) is
retried until all 3 attempts are spent, and (b) a `WyzeApiError` whose
message does not signal expiry is caught and not re-raised — the attempt
counts as completed and the error is swallowed, never surfaced. -/
theorem claim_C1_counterexample :
    (wyze_device_action (fun _ => AttemptOutcome.otherError)).attempts = 3 ∧
    (wyze_device_action (fun _ => AttemptOutcome.otherError)).surfaced = true ∧
    (wyze_device_action (fun _ => AttemptOutcome.wyzeApiError "Device offline")).succeeded
      = true ∧
    (wyze_device_action (fun _ => AttemptOutcome.wyzeApiError "Device offline")).surfaced
      = false ∧
    (wyze_device_action (fun _ => AttemptOutcome.wyzeApiError "Device offline")).attempts
      = 1 := by
  refine ⟨?_, ?_, ?_, ?_, ?_⟩ <;> decide

/-- Claim C1 as amended: the wrapper makes at most 3 attempts; an attempt
failing with a platform error signaling an expired token recreates the
client and is retried; a platform (`WyzeApiError`) error of any other kind
is swallowed — the attempt is treated as completed, nothing is retried and
nothing is surfaced; a non-platform error is retried until the 3-attempt
budget is exhausted and then surfaced (wrapped in a `RetryError`). -/
theorem claim_C1_retry_loop (env : ℕ → AttemptOutcome) :
    (wyze_device_action env).attempts ≤ 3 ∧
    (∀ msg, env 0 = AttemptOutcome.wyzeApiError msg → signalsExpired msg = true →
      1 ≤ (wyze_device_action env).recreates ∧ 2 ≤ (wyze_device_action env).attempts) ∧
    (∀ msg, env 0 = AttemptOutcome.wyzeApiError msg → signalsExpired msg = false →
      wyze_device_action env = ⟨1, true, false, 0⟩) ∧
    (env 0 = AttemptOutcome.ok → wyze_device_action env = ⟨1, true, false, 0⟩) ∧
    (env 0 = AttemptOutcome.otherError → env 1 = AttemptOutcome.otherError →
      env 2 = AttemptOutcome.otherError →
      wyze_device_action env = ⟨3, false, true, 0⟩) := by
  refine ⟨runRetrying_attempts_le env 3 0 0, ?_, ?_, ?_, ?_⟩
  · intro msg h hsig
    have s0 : attemptStep (env 0) = (true, true) := by simp [attemptStep, h, hsig]
    have e1 : wyze_device_action env =
        runRetrying env 2 1 (0 + if true then 1 else 0) :=
      runRetrying_step_fail env 2 0 0 true s0
    norm_num at e1
    rw [e1]
    exact ⟨runRetrying_recreates_ge env 2 1 1, runRetrying_attempts_ge_succ env 1 1 1⟩
  · intro msg h hsig
    have s0 : attemptStep (env 0) = (false, false) := by simp [attemptStep, h, hsig]
    have e1 : wyze_device_action env = ⟨0 + 1, true, false, 0 + if false then 1 else 0⟩ :=
      runRetrying_step_ok env 2 0 0 false s0
    rw [e1]
    norm_num
  · intro h
    have s0 : attemptStep (env 0) = (false, false) := by simp [attemptStep, h]
    have e1 : wyze_device_action env = ⟨0 + 1, true, false, 0 + if false then 1 else 0⟩ :=
      runRetrying_step_ok env 2 0 0 false s0
    rw [e1]
    norm_num
  · intro h0 h1 h2
    have s0 : attemptStep (env 0) = (true, false) := by simp [attemptStep, h0]
    have s1 : attemptStep (env 1) = (true, false) := by simp [attemptStep, h1]
    have s2 : attemptStep (env 2) = (true, false) := by simp [attemptStep, h2]
    have e1 : wyze_device_action env =
        runRetrying env 2 1 (0 + if false then 1 else 0) :=
      runRetrying_step_fail env 2 0 0 false s0
    norm_num at e1
    have e2 : runRetrying env 2 1 0 =
        runRetrying env 1 2 (0 + if false then 1 else 0) :=
      runRetrying_step_fail env 1 1 0 false s1
    norm_num at e2
    have e3 : runRetrying env 1 2 0 =
        runRetrying env 0 3 (0 + if false then 1 else 0) :=
      runRetrying_step_fail env 0 2 0 false s2
    norm_num at e3
    rw [e1, e2, e3, runRetrying_zero]

/-- Claim C1, witness: with a body that completes on the first try, the
wrapper stops after one attempt with nothing surfaced and no recreation. -/
theorem claim_C1_retry_loop_witness :
    wyze_device_action (fun _ => AttemptOutcome.ok) = ⟨1, true, false, 0⟩ :=
  (claim_C1_retry_loop (fun _ => AttemptOutcome.ok)).2.2.2.1 rfl

/-- Claim C4, evidence of the code bug: on the first call for the `'wyze'`
family, `get_client` invokes `create_wyze_client(SCRIPT_PATH)` — a function
defined with no parameters — so the call raises a `TypeError` instead of
loading the existing pickle; and `create_wyze_client` itself always logs in
freshly, never reading the cache.  The cache-reading `get_wyze_client` (which
is what the claim describes) is never called by `main`'s chain.  The vesync
half does behave as claimed: first call loads the on-disk cache when present,
and a memoized handle is returned untouched on repeated calls (shown for both
families). -/
theorem claim_C4_code_bug_evidence :
    get_client "wyze" ⟨none, none⟩ ⟨true, true⟩ =
      Except.error
        "TypeError: create_wyze_client() takes 0 positional arguments but 1 was given" ∧
    create_wyze_client ⟨true, true⟩ = (1, ⟨true, true⟩, [ClientEvent.freshLogin "wyze"]) ∧
    get_wyze_client ⟨true, true⟩ = (0, ⟨true, true⟩, [ClientEvent.loadedFromCache "wyze"]) ∧
    get_client "vesync" ⟨none, none⟩ ⟨true, true⟩ =
      Except.ok (0, ⟨none, some 0⟩, ⟨true, true⟩, [ClientEvent.loadedFromCache "vesync"]) ∧
    get_client "vesync" ⟨none, some 5⟩ ⟨false, false⟩ =
      Except.ok (5, ⟨none, some 5⟩, ⟨false, false⟩, []) ∧
    get_client "wyze" ⟨some 7, none⟩ ⟨false, false⟩ =
      Except.ok (7, ⟨some 7, none⟩, ⟨false, false⟩, []) :=
  ⟨rfl, rfl, rfl, rfl, rfl, rfl⟩

/-- If the device at index `k` is the first to fail validation, the loop of
`validate_parameters` returns `False` having checked exactly the first
`k + 1` devices (no later device is checked). -/
theorem validate_run_first_fail (action action_value : Option String) :
    ∀ (devices : List Device) (k : ℕ) (hk : k < devices.length),
      validate_parameters_for_device (devices.get ⟨k, hk⟩).device_name
        (devices.get ⟨k, hk⟩).device_type action action_value = false →
      (∀ j (hj : j < devices.length), j < k →
        validate_parameters_for_device (devices.get ⟨j, hj⟩).device_name
          (devices.get ⟨j, hj⟩).device_type action action_value = true) →
      validate_parameters_run action action_value devices = (false, k + 1)
  | [], k, hk, _, _ => absurd hk (by simp)
  | d :: rest, 0, _, hfail, _ => by
    rw [validate_parameters_run]
    have hd : validate_parameters_for_device d.device_name d.device_type action
        action_value = false := hfail
    simp [hd]
  | d :: rest, k + 1, hk, hfail, hbefore => by
    have hd : validate_parameters_for_device d.device_name d.device_type action
        action_value = true :=
      hbefore 0 (by simp) (Nat.succ_pos k)
    rw [validate_parameters_run]
    simp only [hd, if_true]
    cases rest with
    | nil => exact absurd hk (by simp)
    | cons e es =>
      have ih := validate_run_first_fail action action_value (e :: es) k
        (by simpa using Nat.lt_of_succ_lt_succ hk)
        (by simpa using hfail)
        (fun j hj hjk => by
          have hb := hbefore (j + 1) (by simpa using Nat.succ_lt_succ hj)
            (Nat.succ_lt_succ hjk)
          simpa using hb)
      simp [ih]

/-- Claim C2: when any device of the batch fails validation (`k` is the
first failing index), `main` performs zero dispatch calls for the whole
batch, and validation stopped right after device `k` — no later device was
checked. -/
theorem claim_C2_fail_before_dispatch (devices : List Device)
    (action action_value : Option String) (k : ℕ) (hk : k < devices.length)
    (hfail : validate_parameters_for_device (devices.get ⟨k, hk⟩).device_name
      (devices.get ⟨k, hk⟩).device_type action action_value = false)
    (hbefore : ∀ j (hj : j < devices.length), j < k →
      validate_parameters_for_device (devices.get ⟨j, hj⟩).device_name
        (devices.get ⟨j, hj⟩).device_type action action_value = true) :
    main_dispatch_calls devices action action_value = [] ∧
    (validate_parameters_run action action_value devices).2 = k + 1 := by
  have h := validate_run_first_fail action action_value devices k hk hfail hbefore
  constructor
  · rw [main_dispatch_calls, validate_parameters, h]
    simp
  · rw [h]

/-- Claim C2, witness: a two-device batch whose second device (a plug) cannot
take the `bright` action — the first (a bulb) validates, the loop stops at
the plug, and nothing is dispatched for either device. -/
theorem claim_C2_fail_before_dispatch_witness :
    main_dispatch_calls
      [⟨"litetop", "wyze", "bulb", "AA"⟩, ⟨"fan", "wyze", "plug", "BB"⟩]
      (some "bright") (some "50") = [] ∧
    (validate_parameters_run (some "bright") (some "50")
      [⟨"litetop", "wyze", "bulb", "AA"⟩, ⟨"fan", "wyze", "plug", "BB"⟩]).2 = 1 + 1 :=
  claim_C2_fail_before_dispatch
    [⟨"litetop", "wyze", "bulb", "AA"⟩, ⟨"fan", "wyze", "plug", "BB"⟩]
    (some "bright") (some "50") 1 (by decide) (by decide)
    (fun j hj hj1 => by
      have hj0 : j = 0 := by omega
      subst hj0
      exact (by decide :
        validate_parameters_for_device "litetop" "bulb" (some "bright") (some "50")
          = true))

/-- Definitional reading of `validate_parameters_for_device` at device type
`"plug"`. -/
theorem validate_for_plug (n a : String) (av : Option String) :
    validate_parameters_for_device n "plug" (some a) av =
      match plug_validations a with
      | none => false
      | some t => validate_action_value t av := rfl

/-- Definitional reading of `validate_parameters_for_device` at device type
`"bulb"`. -/
theorem validate_for_bulb (n a : String) (av : Option String) :
    validate_parameters_for_device n "bulb" (some a) av =
      match bulb_validations a with
      | none => false
      | some t => validate_action_value t av := rfl

/-- Definitional reading of `validate_parameters_for_device` at device type
`"fan"`. -/
theorem validate_for_fan (n a : String) (av : Option String) :
    validate_parameters_for_device n "fan" (some a) av =
      match fan_validations a with
      | none => false
      | some t => validate_action_value t av := rfl

/-- Claim C3, counterexample: the claim lists TOGGLE and GET as legal for
every device kind, but the `validations` table of
`validate_parameters_for_device` contains neither, so validation rejects
them for plugs, bulbs and fans alike (while accepting the table's real
members, e.g. `speed` for fans). -/
theorem claim_C3_counterexample :
    validate_parameters_for_device "desk" "plug" (some "toggle") none = false ∧
    validate_parameters_for_device "desk" "plug" (some "get") none = false ∧
    validate_parameters_for_device "lamp" "bulb" (some "toggle") none = false ∧
    validate_parameters_for_device "lamp" "bulb" (some "get") none = false ∧
    validate_parameters_for_device "ac" "fan" (some "toggle") none = false ∧
    validate_parameters_for_device "ac" "fan" (some "get") none = false ∧
    validate_parameters_for_device "ac" "fan" (some "speed") (some "2") = true := by
  refine ⟨?_, ?_, ?_, ?_, ?_, ?_, ?_⟩ <;> decide

/-- Claim C3 as amended: validation accepts exactly the actions of the
`validations` table — plugs: on/off; bulbs: on/off/bright/temp; fans:
on/off/speed — with a value-taking action additionally requiring its value
to validate.  `toggle` and `get` are implemented by the dispatchers but are
not in the table, so they are never accepted. -/
theorem claim_C3_legal_actions (device_name a : String) (action_value : Option String) :
    (validate_parameters_for_device device_name "plug" (some a) action_value = true ↔
      a = "on" ∨ a = "off") ∧
    (validate_parameters_for_device device_name "bulb" (some a) action_value = true ↔
      a = "on" ∨ a = "off" ∨
      (a = "bright" ∧ validate_bulb_action_value action_value WYZE_BULB_BRIGHTNESS_MIN
        WYZE_BULB_BRIGHTNESS_MAX = true) ∨
      (a = "temp" ∧ validate_bulb_action_value action_value
        WYZE_BULB_COLOR_TEMPERATURE_MIN WYZE_BULB_COLOR_TEMPERATURE_MAX = true)) ∧
    (validate_parameters_for_device device_name "fan" (some a) action_value = true ↔
      a = "on" ∨ a = "off" ∨
      (a = "speed" ∧ validate_fan_action_value action_value VESYNC_FAN_SPEED_MIN
        VESYNC_FAN_SPEED_MAX = true)) := by
  refine ⟨?_, ?_, ?_⟩
  · rw [validate_for_plug]
    unfold plug_validations
    split_ifs with h1 h2 <;> simp_all [validate_action_value]
  · rw [validate_for_bulb]
    unfold bulb_validations
    split_ifs with h1 h2 h3 h4 <;> simp_all [validate_action_value]
  · rw [validate_for_fan]
    unfold fan_validations
    split_ifs with h1 h2 h3 <;> simp_all [validate_action_value]

/-- Claim C7: the exact acceptance conditions of the three value validators,
including the rejection of an absent (`None`) value by all three. -/
theorem claim_C7_value_validation (v : String) :
    (validate_bulb_action_value (some v) WYZE_BULB_BRIGHTNESS_MIN
        WYZE_BULB_BRIGHTNESS_MAX = true ↔
      v = "+" ∨ v = "-" ∨
        (isNumeric v = true ∧ 1 ≤ strToNat v ∧ strToNat v ≤ 100)) ∧
    (validate_bulb_action_value (some v) WYZE_BULB_COLOR_TEMPERATURE_MIN
        WYZE_BULB_COLOR_TEMPERATURE_MAX = true ↔
      v = "+" ∨ v = "-" ∨
        (isNumeric v = true ∧ 2700 ≤ strToNat v ∧ strToNat v ≤ 6500)) ∧
    (validate_fan_action_value (some v) VESYNC_FAN_SPEED_MIN VESYNC_FAN_SPEED_MAX
        = true ↔
      (isNumeric v = true ∧ 1 ≤ strToNat v ∧ strToNat v ≤ 3) ∨ v = "cycle") ∧
    validate_bulb_action_value none WYZE_BULB_BRIGHTNESS_MIN WYZE_BULB_BRIGHTNESS_MAX
      = false ∧
    validate_bulb_action_value none WYZE_BULB_COLOR_TEMPERATURE_MIN
      WYZE_BULB_COLOR_TEMPERATURE_MAX = false ∧
    validate_fan_action_value none VESYNC_FAN_SPEED_MIN VESYNC_FAN_SPEED_MAX
      = false := by
  refine ⟨?_, ?_, ?_, rfl, rfl, rfl⟩
  · simp only [validate_bulb_action_value, WYZE_BULB_BRIGHTNESS_MIN,
      WYZE_BULB_BRIGHTNESS_MAX]
    split_ifs with h1 h2 <;> simp_all
    tauto
  · simp only [validate_bulb_action_value, WYZE_BULB_COLOR_TEMPERATURE_MIN,
      WYZE_BULB_COLOR_TEMPERATURE_MAX]
    split_ifs with h1 h2 <;> simp_all
    tauto
  · simp only [validate_fan_action_value, VESYNC_FAN_SPEED_MIN, VESYNC_FAN_SPEED_MAX]
    split_ifs with h1 h2 <;> simp_all

/-- `pyInt` agrees with the integer `n` squeezed between the usual floor
bounds (all values in scope are non-negative). -/
theorem pyInt_eq_of_bounds (q : ℚ) (n : ℤ) (h0 : 0 ≤ n) (h1 : (n : ℚ) ≤ q)
    (h2 : q < (n : ℚ) + 1) : pyInt q = n := by
  have h0q : (0 : ℚ) ≤ q := le_trans (by exact_mod_cast h0) h1
  rw [pyInt, if_pos h0q, Int.floor_eq_iff]
  exact ⟨h1, h2⟩

/-- An unclamped `'+'` brightness step from integer `v`: the computed value
is `int(v + 19.8) = v + 19`. -/
theorem computedBrightness_plus (v : ℤ) (h0 : 0 ≤ v) (h : v ≤ 80) :
    computedBrightness (v : ℚ) "+" = v + 19 := by
  have hI : WYZE_BULB_BRIGHTNESS_INTERVAL = 99 / 5 := by
    norm_num [WYZE_BULB_BRIGHTNESS_INTERVAL, WYZE_BULB_BRIGHTNESS_MIN,
      WYZE_BULB_BRIGHTNESS_MAX]
  have hM : ((WYZE_BULB_BRIGHTNESS_MAX : ℕ) : ℚ) = 100 := by
    norm_num [WYZE_BULB_BRIGHTNESS_MAX]
  have hv : (v : ℚ) ≤ 80 := by exact_mod_cast h
  unfold computedBrightness
  simp only [String.reduceEq, reduceIte, hI, hM]
  rw [min_eq_left (by linarith)]
  refine pyInt_eq_of_bounds _ (v + 19) (by omega) ?_ ?_ <;> push_cast <;> linarith

/-- An unclamped `'-'` brightness step from integer `v`: the computed value
is `int(v - 19.8) = v - 20`. -/
theorem computedBrightness_minus (v : ℤ) (h : 21 ≤ v) :
    computedBrightness (v : ℚ) "-" = v - 20 := by
  have hI : WYZE_BULB_BRIGHTNESS_INTERVAL = 99 / 5 := by
    norm_num [WYZE_BULB_BRIGHTNESS_INTERVAL, WYZE_BULB_BRIGHTNESS_MIN,
      WYZE_BULB_BRIGHTNESS_MAX]
  have hm : ((WYZE_BULB_BRIGHTNESS_MIN : ℕ) : ℚ) = 1 := by
    norm_num [WYZE_BULB_BRIGHTNESS_MIN]
  have hv : (21 : ℚ) ≤ (v : ℚ) := by exact_mod_cast h
  unfold computedBrightness
  simp only [String.reduceEq, reduceIte, hI, hm]
  rw [max_eq_left (by linarith)]
  refine pyInt_eq_of_bounds _ (v - 20) (by omega) ?_ ?_ <;> push_cast <;> linarith

/-- An unclamped `'+'` color-temperature step from integer `t`: the interval
is exactly 760, so the computed value is `t + 760`. -/
theorem computedColorTemperature_plus (t : ℤ) (h0 : 0 ≤ t) (h : t ≤ 5740) :
    computedColorTemperature (t : ℚ) "+" = t + 760 := by
  have hI : WYZE_BULB_COLOR_TEMPERATURE_INTERVAL = 760 := by
    norm_num [WYZE_BULB_COLOR_TEMPERATURE_INTERVAL, WYZE_BULB_COLOR_TEMPERATURE_RANGE,
      WYZE_BULB_COLOR_TEMPERATURE_MIN, WYZE_BULB_COLOR_TEMPERATURE_MAX]
  have hM : ((WYZE_BULB_COLOR_TEMPERATURE_MAX : ℕ) : ℚ) = 6500 := by
    norm_num [WYZE_BULB_COLOR_TEMPERATURE_MAX]
  have ht : (t : ℚ) ≤ 5740 := by exact_mod_cast h
  unfold computedColorTemperature
  simp only [String.reduceEq, reduceIte, hI, hM]
  rw [min_eq_left (by linarith)]
  refine pyInt_eq_of_bounds _ (t + 760) (by omega) ?_ ?_ <;> push_cast <;> linarith

/-- An unclamped `'-'` color-temperature step from integer `t`: the computed
value is `t - 760`. -/
theorem computedColorTemperature_minus (t : ℤ) (h : 3460 ≤ t) :
    computedColorTemperature (t : ℚ) "-" = t - 760 := by
  have hI : WYZE_BULB_COLOR_TEMPERATURE_INTERVAL = 760 := by
    norm_num [WYZE_BULB_COLOR_TEMPERATURE_INTERVAL, WYZE_BULB_COLOR_TEMPERATURE_RANGE,
      WYZE_BULB_COLOR_TEMPERATURE_MIN, WYZE_BULB_COLOR_TEMPERATURE_MAX]
  have hm : ((WYZE_BULB_COLOR_TEMPERATURE_MIN : ℕ) : ℚ) = 2700 := by
    norm_num [WYZE_BULB_COLOR_TEMPERATURE_MIN]
  have ht : (3460 : ℚ) ≤ (t : ℚ) := by exact_mod_cast h
  unfold computedColorTemperature
  simp only [String.reduceEq, reduceIte, hI, hm]
  rw [max_eq_left (by linarith)]
  refine pyInt_eq_of_bounds _ (t - 760) (by omega) ?_ ?_ <;> push_cast <;> linarith

/-- Claim C9, counterexample: start at brightness 50 — strictly inside
[1, 100], and neither step clamps (50 + 19.8 = 69.8 ≤ 100, then
69 - 19.8 = 49.2 ≥ 1) — yet `'+'` then `'-'` lands on 49, not 50: the
19.8 interval is truncated to +19 on the way up but to -20 on the way
down. -/
theorem claim_C9_counterexample :
    computedBrightness ((computedBrightness ((50 : ℤ) : ℚ) "+" : ℤ) : ℚ) "-" = 49 ∧
    computedBrightness ((computedBrightness ((50 : ℤ) : ℚ) "+" : ℤ) : ℚ) "-" ≠ 50 := by
  have h1 : computedBrightness ((50 : ℤ) : ℚ) "+" = 69 := by
    rw [computedBrightness_plus 50 (by norm_num) (by norm_num)]
    norm_num
  have h2 : computedBrightness ((computedBrightness ((50 : ℤ) : ℚ) "+" : ℤ) : ℚ) "-"
      = 49 := by
    rw [h1, computedBrightness_minus 69 (by norm_num)]
    norm_num
  exact ⟨h2, by rw [h2]; norm_num⟩

/-- Claim C9 as amended: for color temperature the `'+'` then `'-'`
round trip returns exactly the start when neither step clamps (the interval
760 is integral); for brightness the same round trip returns the start
minus one for every unclamped integer start, because the 19.8 interval is
truncated asymmetrically by `int(...)`. -/
theorem claim_C9_adjust_roundtrip (v t : ℤ)
    (hv1 : 2 ≤ v) (hv2 : v ≤ 80) (ht1 : 2700 ≤ t) (ht2 : t ≤ 5740) :
    computedColorTemperature
      ((computedColorTemperature (t : ℚ) "+" : ℤ) : ℚ) "-" = t ∧
    computedBrightness ((computedBrightness (v : ℚ) "+" : ℤ) : ℚ) "-" = v - 1 := by
  constructor
  · rw [computedColorTemperature_plus t (by omega) ht2,
      computedColorTemperature_minus (t + 760) (by omega)]
    omega
  · rw [computedBrightness_plus v (by omega) hv2,
      computedBrightness_minus (v + 19) (by omega)]
    omega

/-- Claim C9, witness: temperature 3000 round-trips to 3000; brightness 50
round-trips to 49. -/
theorem claim_C9_adjust_roundtrip_witness :
    computedColorTemperature
      ((computedColorTemperature ((3000 : ℤ) : ℚ) "+" : ℤ) : ℚ) "-" = 3000 ∧
    computedBrightness ((computedBrightness ((50 : ℤ) : ℚ) "+" : ℤ) : ℚ) "-"
      = (50 : ℤ) - 1 :=
  claim_C9_adjust_roundtrip 50 3000 (by norm_num) (by norm_num) (by norm_num)
    (by norm_num)

end HomeAutomation
